import Mathlib

/-!
Shallow embedding of the CLMM-Rebalancer repository.

Embedded from the source under src/:
  - ts-executor/src/fetch-pool.ts, which concatenates three scripts:
      fetch-pool (lines 1-73), withdraw-all (lines 74-356),
      open-position (lines 357-586);
  - the fetch-position script (src/unnamed/part_000).

The python-runner orchestrator (workflow state machine, trigger evaluator,
range selector, state store) is referenced by the README but its code is
not present under src/; those parts are modelled from the spec and are
marked as such in their doc comments.

Machine numbers: on-chain token amounts and liquidity are Nat, ticks are
Int, prices are Rat (the TS code uses JS numbers / f64 for prices; the
claims settled here concern which arguments flow where and branch
structure, not float rounding).
-/

/-- Signature confirmation status as reported by getSignatureStatuses. -/
inductive ConfStatus where
  | processed
  | confirmed
  | finalized
deriving DecidableEq, Repr

/-- One entry of getSignatureStatuses().value: a possibly-failed status. -/
structure SigStatus where
  err : Option String
  confirmationStatus : Option ConfStatus
deriving DecidableEq, Repr

/-- Outcome of the bounded confirmation-polling loop. -/
inductive PollOutcome where
  | confirmedTx
  | failedTx (e : String)
  | timeout
deriving DecidableEq, Repr

/-- The confirmation-polling loop shared in shape by withdraw-all
(fetch-pool.ts lines 294-318, maxRetries = 30) and open-position
(lines 525-548, maxRetries = 15): on each attempt it reads the signature
status; a present status with a non-null err ends the loop as failed, a
present confirmed/finalized status ends it as confirmed, anything else
(null status or processed) continues to the next attempt; exhausting the
attempts is a timeout.  The 2s inter-attempt sleep is real time and is not
part of the embedding; the attempt bound is the fuel argument. -/
def runPoll (getStatus : Nat → Option SigStatus) : Nat → Nat → PollOutcome
  | _, 0 => .timeout
  | i, rem + 1 =>
    match getStatus i with
    | none => runPoll getStatus (i + 1) rem
    | some st =>
      match st.err with
      | some e => .failedTx e
      | none =>
        match st.confirmationStatus with
        | some .confirmed => .confirmedTx
        | some .finalized => .confirmedTx
        | _ => runPoll getStatus (i + 1) rem

/-- Failure result of the withdraw-all script (fetch-pool.ts lines 157-161):
success is the literal false, plus an error message and the position mint. -/
structure WithdrawError where
  error : String
  positionMint : String
deriving DecidableEq, Repr

/-- Success result of the withdraw-all script (fetch-pool.ts lines 146-155). -/
structure WithdrawResult where
  positionMint : String
  amountAWithdrawn : Nat
  amountBWithdrawn : Nat
  feeCollectedA : Nat
  feeCollectedB : Nat
  txid : String
deriving DecidableEq, Repr

/-- The structured output printed by the withdraw-all script: either a
WithdrawResult (success = true) or a WithdrawError (success = false). -/
inductive WithdrawOutput where
  | ok (r : WithdrawResult)
  | err (e : WithdrawError)
deriving DecidableEq, Repr

/-- The success flag of a withdraw-all output. -/
def WithdrawOutput.success : WithdrawOutput → Bool
  | .ok _ => true
  | .err _ => false

/-- RPC-visible actions performed by the withdraw-all script, in order. -/
inductive RpcAction where
  | fetchPositionAcct
  | simulate
  | sendTransaction
deriving DecidableEq, Repr

/-- The chain responses observed by one run of the withdraw-all script. -/
structure WithdrawEnv where
  positionLiquidity : Nat
  simulationErr : Option String
  statuses : Nat → Option SigStatus
  quoteTokenEstA : Nat
  quoteTokenEstB : Nat
  feeOwedA : Nat
  feeOwedB : Nat
  signature : String

/-- The withdraw-all script body (fetch-pool.ts lines 195-353) after the
keypair is loaded, as a function of the chain responses: fetch the
position; if its liquidity is 0n report the zero-liquidity error (lines
219-227); otherwise simulate, and on a non-null simulation err report a
failure without sending (lines 271-279); otherwise send the transaction
and poll for confirmation up to 30 attempts; a status err is a failure, a
timeout is a failure, confirmation yields the success result built from
the close-position quote.  Returns the printed output paired with the
ordered trace of RPC side effects. -/
def withdrawAllRun (env : WithdrawEnv) (positionMint : String) :
    WithdrawOutput × List RpcAction :=
  if env.positionLiquidity = 0 then
    (.err ⟨"Position has no liquidity to withdraw", positionMint⟩,
      [RpcAction.fetchPositionAcct])
  else
    match env.simulationErr with
    | some e =>
        (.err ⟨"Simulation failed: " ++ e, positionMint⟩,
          [RpcAction.fetchPositionAcct, RpcAction.simulate])
    | none =>
        let acts := [RpcAction.fetchPositionAcct, RpcAction.simulate,
          RpcAction.sendTransaction]
        match runPoll env.statuses 0 30 with
        | .failedTx e =>
            (.err ⟨"Transaction failed: " ++ e, positionMint⟩, acts)
        | .timeout =>
            (.err ⟨"Transaction confirmation timeout", positionMint⟩, acts)
        | .confirmedTx =>
            (.ok ⟨positionMint, env.quoteTokenEstA, env.quoteTokenEstB,
              env.feeOwedA, env.feeOwedB, env.signature⟩, acts)

/-- Failure result of the open-position script (fetch-pool.ts lines
425-428): success is the literal false plus an error message; there is no
position-mint field. -/
structure OpenPositionError where
  error : String
deriving DecidableEq, Repr

/-- Success result of the open-position script (fetch-pool.ts lines
414-423). -/
structure OpenPositionResult where
  positionMint : String
  lowerPrice : Rat
  upperPrice : Rat
  tokenADeposited : Nat
  tokenBDeposited : Nat
  liquidityDelta : Nat
  txid : String
deriving DecidableEq, Repr

/-- The structured output printed by the open-position script. -/
inductive OpenOutput where
  | ok (r : OpenPositionResult)
  | err (e : OpenPositionError)
deriving DecidableEq, Repr

/-- The success flag of an open-position output. -/
def OpenOutput.success : OpenOutput → Bool
  | .ok _ => true
  | .err _ => false

/-- The chain responses observed by one run of the open-position script. -/
structure OpenEnv where
  statuses : Nat → Option SigStatus
  quoteTokenEstA : Nat
  quoteTokenEstB : Nat
  quoteLiquidityDelta : Nat
  newPositionMint : String
  signature : String

/-- The open-position script body (fetch-pool.ts lines 457-584) after
argument parsing, as a function of the chain responses: a lowerPrice that
is not strictly below upperPrice is rejected up front (lines 472-479);
otherwise the transaction is sent via the SDK callback and the script
polls for confirmation up to 15 attempts.  Only an observed status err
makes the script print a failure (lines 550-557); when the loop exhausts
its attempts without confirming, the script logs a warning to stderr and
still prints the success result (lines 559-575). -/
def openPositionRun (env : OpenEnv) (lowerPrice upperPrice : Rat)
    (_tokenAmount : Nat) : OpenOutput :=
  if lowerPrice ≥ upperPrice then
    .err ⟨"Invalid price range: lowerPrice must be < upperPrice"⟩
  else
    match runPoll env.statuses 0 15 with
    | .failedTx e => .err ⟨"Transaction failed: " ++ e⟩
    | .confirmedTx =>
        .ok ⟨env.newPositionMint, lowerPrice, upperPrice, env.quoteTokenEstA,
          env.quoteTokenEstB, env.quoteLiquidityDelta, env.signature⟩
    | .timeout =>
        .ok ⟨env.newPositionMint, lowerPrice, upperPrice, env.quoteTokenEstA,
          env.quoteTokenEstB, env.quoteLiquidityDelta, env.signature⟩

/-- The sqrtPriceToPrice library call (orca whirlpools-core), over Rat:
price = (sqrtPrice / 2^64)^2 scaled by 10^(decimalsA - decimalsB).  The
library computes in f64; the claims here concern only which decimal
arguments each script passes. -/
def sqrtPriceToPrice (sqrtPrice : Rat) (decimalsA decimalsB : Nat) : Rat :=
  (sqrtPrice / 2 ^ 64) ^ 2 * (10 : Rat) ^ ((decimalsA : Int) - (decimalsB : Int))

/-- The tickIndexToPrice library call (orca whirlpools-core), over Rat:
price = 1.0001^tick scaled by 10^(decimalsA - decimalsB). -/
def tickIndexToPrice (tick : Int) (decimalsA decimalsB : Nat) : Rat :=
  (10001 / 10000 : Rat) ^ tick * (10 : Rat) ^ ((decimalsA : Int) - (decimalsB : Int))

/-- The on-chain whirlpool account fields read by the scripts
(pool.data / whirlpool.data). -/
structure WhirlpoolData where
  sqrtPrice : Rat
  tickCurrentIndex : Int
  tickSpacing : Nat
  tokenMintA : String
  tokenMintB : String
  liquidity : Nat
  feeRate : Nat
deriving DecidableEq, Repr

/-- The on-chain position account fields read by the scripts
(position.data). -/
structure PositionData where
  whirlpool : String
  tickLowerIndex : Int
  tickUpperIndex : Int
  liquidity : Nat
  feeOwedA : Nat
  feeOwedB : Nat
deriving DecidableEq, Repr

/-- fetchTokenDecimals from the fetch-position script (part_000 lines
33-45): a missing mint account falls back to 6; otherwise the decimals
are the byte at offset 44 of the account data (real mint accounts are 82
bytes; getD supplies the out-of-range default).  The argument is the
getAccountInfo response: none when value is null, some data otherwise. -/
def fetchTokenDecimals (acct : Option (List Nat)) : Nat :=
  match acct with
  | none => 6
  | some data => data.getD 44 0

/-- The PositionSnapshot record printed by the fetch-position script
(part_000 lines 13-31). -/
structure PositionSnapshot where
  positionMint : String
  whirlpool : String
  currentTick : Int
  currentPrice : Rat
  tickSpacing : Nat
  lowerTick : Int
  upperTick : Int
  lowerPrice : Rat
  upperPrice : Rat
  liquidity : Nat
  mintA : String
  mintB : String
  inRange : Bool
  feeOwedA : Nat
  feeOwedB : Nat
deriving DecidableEq, Repr

/-- The snapshot construction of the fetch-position script (part_000
lines 64-129): token decimals are fetched per mint account (with the
fallback of fetchTokenDecimals), prices are derived from the pool sqrt
price and the position tick indices with those decimals, and inRange is
currentTick >= tickLowerIndex && currentTick < tickUpperIndex (lines
94-98). -/
def mkPositionSnapshot (positionMint : String) (position : PositionData)
    (whirlpool : WhirlpoolData) (mintAcctA mintAcctB : Option (List Nat)) :
    PositionSnapshot :=
  let decimalsA := fetchTokenDecimals mintAcctA
  let decimalsB := fetchTokenDecimals mintAcctB
  { positionMint := positionMint
    whirlpool := position.whirlpool
    currentTick := whirlpool.tickCurrentIndex
    currentPrice := sqrtPriceToPrice whirlpool.sqrtPrice decimalsA decimalsB
    tickSpacing := whirlpool.tickSpacing
    lowerTick := position.tickLowerIndex
    upperTick := position.tickUpperIndex
    lowerPrice := tickIndexToPrice position.tickLowerIndex decimalsA decimalsB
    upperPrice := tickIndexToPrice position.tickUpperIndex decimalsA decimalsB
    liquidity := position.liquidity
    mintA := whirlpool.tokenMintA
    mintB := whirlpool.tokenMintB
    inRange := decide (whirlpool.tickCurrentIndex ≥ position.tickLowerIndex) &&
      decide (whirlpool.tickCurrentIndex < position.tickUpperIndex)
    feeOwedA := position.feeOwedA
    feeOwedB := position.feeOwedB }

/-- The PoolInfo record printed by the fetch-pool script (fetch-pool.ts
lines 11-21). -/
structure PoolInfo where
  whirlpool : String
  mintA : String
  mintB : String
  tickSpacing : Nat
  currentTick : Int
  currentSqrtPrice : Rat
  currentPrice : Rat
  liquidity : Nat
  feeRate : Nat
deriving DecidableEq, Repr

/-- The fetch-pool script body (fetch-pool.ts lines 38-60): it hard-codes
decimalsA = 9 (SOL) and decimalsB = 6 (USDC) at lines 41-43 and computes
currentPrice with those constants, never consulting the mint accounts of
the pool it was given. -/
def mkPoolInfo (poolAddress : String) (pool : WhirlpoolData) : PoolInfo :=
  let decimalsA := 9
  let decimalsB := 6
  { whirlpool := poolAddress
    mintA := pool.tokenMintA
    mintB := pool.tokenMintB
    tickSpacing := pool.tickSpacing
    currentTick := pool.tickCurrentIndex
    currentSqrtPrice := pool.sqrtPrice
    currentPrice := sqrtPriceToPrice pool.sqrtPrice decimalsA decimalsB
    liquidity := pool.liquidity
    feeRate := pool.feeRate }

/-- Modelled from the spec: the Range Selector (python-runner
range_selector, absent from src/).  Per spec section 4.3 it computes
lowerPrice = currentPrice * (1 - range_width_pct/200) and
upperPrice = currentPrice * (1 + range_width_pct/200), and fails with
InvalidRangeError when range_width_pct <= 0. -/
def selectRange (currentPrice range_width_pct : Rat) :
    Except String (Rat × Rat) :=
  if range_width_pct ≤ 0 then .error "InvalidRangeError"
  else .ok (currentPrice * (1 - range_width_pct / 200),
    currentPrice * (1 + range_width_pct / 200))

/-- The rebalance decision of the Trigger Evaluator. -/
inductive Decision where
  | noTrigger
  | outOfRange
  | nearEdge
deriving DecidableEq, Repr

/-- The trigger flags of RebalanceConfig (spec section 3 and the README
config: rebalance_triggers.out_of_range, rebalance_triggers.edge_threshold_pct). -/
structure TriggerConfig where
  out_of_range : Bool
  edge_threshold_pct : Rat
deriving DecidableEq, Repr

/-- Width of the position price range, upperPrice - lowerPrice. -/
def rangeWidth (s : PositionSnapshot) : Rat :=
  s.upperPrice - s.lowerPrice

/-- Distance from the current price to whichever boundary is closer. -/
def distToNearerBoundary (s : PositionSnapshot) : Rat :=
  min (s.currentPrice - s.lowerPrice) (s.upperPrice - s.currentPrice)

/-- Modelled from the spec: the Trigger Evaluator (python-runner, absent
from src/).  Per spec section 4.2: out-of-range when the snapshot is not
in range and the out_of_range trigger is enabled, checked first; otherwise
near-edge when the snapshot is in range and
distToNearerBoundary / rangeWidth <= edge_threshold_pct / 100 (inclusive
at the threshold); otherwise no trigger. -/
def evaluate (s : PositionSnapshot) (cfg : TriggerConfig) : Decision :=
  if !s.inRange && cfg.out_of_range then .outOfRange
  else if s.inRange &&
      decide (distToNearerBoundary s / rangeWidth s ≤ cfg.edge_threshold_pct / 100) then
    .nearEdge
  else .noTrigger

/-- The pending_step enum of the persisted WorkflowState. -/
inductive Step where
  | idle
  | withdraw
  | swap
  | open
deriving DecidableEq, Repr

/-- The withdrawn_amounts record of the persisted WorkflowState. -/
structure Amounts where
  tokenA : Nat
  tokenB : Nat
deriving DecidableEq, Repr

/-- Modelled from the spec: the persisted WorkflowState record (spec
section 3; its python-runner implementation is absent from src/).
Step.idle stands for the pending_step value none. -/
structure WorkflowState where
  current_position_mint : Option String
  last_rebalance : Option Nat
  pending_rebalance : Bool
  pending_step : Step
  withdrawn_amounts : Amounts
deriving DecidableEq, Repr

/-- Result of driving the workflow: a new persisted state on success, or
a halt that leaves pending_rebalance = true and pending_step unchanged. -/
inductive StepResult where
  | ok (st : WorkflowState)
  | halted (e : String)
deriving DecidableEq, Repr

/-- Side-effecting calls the workflow can make, recorded in order:
withdrawExec is a call of the executor withdraw, swapEval is entry into
the swap step with the amounts it computes from, swapExec is a swap
collaborator call, openExec is a call of the executor open-position. -/
inductive WAction where
  | withdrawExec
  | swapEval (amts : Amounts)
  | swapExec
  | openExec
deriving DecidableEq, Repr

/-- Outcomes the environment supplies to the modelled workflow steps. -/
structure WEnv where
  observedLiquidity : Nat
  withdrawOutcome : Except String Amounts
  swapBelowMin : Bool
  swapOutcome : Option String
  currentPrice : Rat
  range_width_pct : Rat
  openOutcome : Option String
  newMint : String
  nowTs : Nat

/-- Modelled from the spec: the Withdraw step of the Rebalance Workflow
(spec section 4.4 step 1; the python-runner workflow is absent from
src/).  If the position is observed to have zero liquidity the step is
treated as already-complete: no executor call is made, the step succeeds
and pending_step advances to swap with current_position_mint cleared.
Otherwise the executor withdraw runs; on success the withdrawn amounts
are recorded and pending_step advances to swap; on failure the workflow
halts with pending_step unchanged. -/
def withdrawStepModel (st : WorkflowState) (env : WEnv) :
    StepResult × List WAction :=
  if env.observedLiquidity = 0 then
    (.ok { st with pending_step := Step.swap, current_position_mint := none }, [])
  else
    match env.withdrawOutcome with
    | .ok amts =>
        (.ok { st with
                pending_step := Step.swap
                current_position_mint := none
                withdrawn_amounts := amts },
          [WAction.withdrawExec])
    | .error e => (.halted e, [WAction.withdrawExec])

/-- Modelled from the spec: the Swap step (spec section 4.4 step 2).  The
step computes the required delta from the stored withdrawn_amounts
(recorded as swapEval of those amounts); when the required swap value is
below min_swap_value_usd the step is a skip, not a failure; otherwise the
swap collaborator is invoked.  On success pending_step advances to open. -/
def swapStepModel (st : WorkflowState) (env : WEnv) :
    StepResult × List WAction :=
  if env.swapBelowMin then
    (.ok { st with pending_step := Step.open },
      [WAction.swapEval st.withdrawn_amounts])
  else
    match env.swapOutcome with
    | none =>
        (.ok { st with pending_step := Step.open },
          [WAction.swapEval st.withdrawn_amounts, WAction.swapExec])
    | some e =>
        (.halted e, [WAction.swapEval st.withdrawn_amounts, WAction.swapExec])

/-- Modelled from the spec: the Open step (spec section 4.4 step 3).  The
new range comes from the Range Selector at the re-read current price;
then the executor open-position runs; on success the new mint is stored,
last_rebalance is set, pending_step returns to none and pending_rebalance
clears. -/
def openStepModel (st : WorkflowState) (env : WEnv) :
    StepResult × List WAction :=
  match selectRange env.currentPrice env.range_width_pct with
  | .error e => (.halted e, [])
  | .ok _ =>
    match env.openOutcome with
    | none =>
        (.ok { st with
                current_position_mint := some env.newMint
                last_rebalance := some env.nowTs
                pending_step := Step.idle
                pending_rebalance := false },
          [WAction.openExec])
    | some e => (.halted e, [WAction.openExec])

/-- Sequencing of workflow steps: a halt stops the run, a success feeds
the persisted state to the next step; action traces concatenate. -/
def andThen (r : StepResult × List WAction)
    (k : WorkflowState → StepResult × List WAction) :
    StepResult × List WAction :=
  match r with
  | (.ok st, t) =>
      let s := k st
      (s.1, t ++ s.2)
  | (.halted e, t) => (.halted e, t)

/-- Modelled from the spec: running the workflow from its persisted
pending_step (spec section 4.4): withdraw then swap then open, each
transition persisted before the next step starts, halting on the first
step failure.  pending_step = none (idle) starts a fresh cycle at
withdraw with pending_rebalance set. -/
def runFrom (st : WorkflowState) (env : WEnv) : StepResult × List WAction :=
  match st.pending_step with
  | Step.withdraw =>
      andThen (withdrawStepModel st env) fun st2 =>
        andThen (swapStepModel st2 env) fun st3 => openStepModel st3 env
  | Step.swap =>
      andThen (swapStepModel st env) fun st2 => openStepModel st2 env
  | Step.open => openStepModel st env
  | Step.idle =>
      let st1 := { st with
        pending_rebalance := true
        pending_step := Step.withdraw }
      andThen (withdrawStepModel st1 env) fun st2 =>
        andThen (swapStepModel st2 env) fun st3 => openStepModel st3 env

/-- Modelled from the spec: Workflow entry (spec sections 4.4 and 5).
When pending_rebalance is true the invocation is a resume: it re-enters
at the persisted pending_step without re-evaluating the trigger.  When no
workflow is in flight, a trigger decision (or force) starts a fresh run;
otherwise nothing happens. -/
def invokeWorkflow (st : WorkflowState) (decision : Decision)
    (force : Bool) (env : WEnv) : StepResult × List WAction :=
  if st.pending_rebalance then runFrom st env
  else if decision ≠ Decision.noTrigger || force then
    runFrom { st with
      pending_rebalance := true
      pending_step := Step.withdraw } env
  else (.ok st, [])

/-- The base58 alphabet literal shared by both decodeBase58 copies
(fetch-pool.ts lines 106 and 375). -/
def b58AlphabetW : List Char :=
  "123456789ABCDEFGHJKLMNPQRSTUVWXYZabcdefghijkmnopqrstuvwxyz".toList

/-- ALPHABET_MAP lookup of the withdraw-all copy (fetch-pool.ts lines
107-110, read at line 116): the index of the character in the alphabet,
none when the character is not base58. -/
def b58LookupW (c : Char) : Option Nat :=
  b58AlphabetW.findIdx? fun x => x == c

/-- The inner for-j loop of the withdraw-all copy (fetch-pool.ts lines
121-126): each byte is multiplied by 58 and the carry propagated,
keeping bytes[j] = carry & 0xff and carry >>= 8; returns the updated
byte list (same length, little-endian, index 0 first) and the carry
left over. -/
def b58MulAddW : List Nat → Nat → List Nat × Nat
  | [], carry => ([], carry)
  | b :: rest, carry =>
      let t := carry + b * 58
      let p := b58MulAddW rest (t / 256)
      (t % 256 :: p.1, p.2)

/-- The trailing while-loop of the withdraw-all copy (fetch-pool.ts lines
128-131): push carry & 0xff and shift until the carry is exhausted. -/
def b58PushCarryW (c : Nat) : List Nat :=
  if h : c = 0 then []
  else c % 256 :: b58PushCarryW (c / 256)
termination_by c
decreasing_by exact Nat.div_lt_self (Nat.pos_of_ne_zero h) (by norm_num)

/-- Processing of one input character by the withdraw-all copy
(fetch-pool.ts lines 115-132): look the character up, fail on a
non-base58 character, otherwise multiply-add it into the byte list. -/
def b58StepW (bytes : List Nat) (c : Char) : Except String (List Nat) :=
  match b58LookupW c with
  | none => .error ("Invalid base58 character: ".push c)
  | some v =>
      let p := b58MulAddW bytes v
      .ok (p.1 ++ b58PushCarryW p.2)

/-- decodeBase58 as written in the withdraw-all script (fetch-pool.ts
lines 105-144): empty input decodes to the empty byte array; otherwise
the characters are folded into a little-endian byte list seeded with
[0], a zero byte is appended per leading character 1 of the input, and
the list is reversed into big-endian order. -/
def decodeBase58W (encoded : String) : Except String (List Nat) :=
  if encoded.length = 0 then .ok []
  else
    match encoded.toList.foldlM b58StepW [0] with
    | .error e => .error e
    | .ok bytes =>
        .ok (bytes ++
          (encoded.toList.takeWhile fun c => c == '1').map (fun _ => 0)).reverse

/-- The base58 alphabet literal of the open-position copy (fetch-pool.ts
line 375). -/
def b58AlphabetO : List Char :=
  "123456789ABCDEFGHJKLMNPQRSTUVWXYZabcdefghijkmnopqrstuvwxyz".toList

/-- ALPHABET_MAP lookup of the open-position copy (fetch-pool.ts lines
376-379, read at line 385). -/
def b58LookupO (c : Char) : Option Nat :=
  b58AlphabetO.findIdx? fun x => x == c

/-- The inner for-j loop of the open-position copy (fetch-pool.ts lines
390-395). -/
def b58MulAddO : List Nat → Nat → List Nat × Nat
  | [], carry => ([], carry)
  | b :: rest, carry =>
      let t := carry + b * 58
      let p := b58MulAddO rest (t / 256)
      (t % 256 :: p.1, p.2)

/-- The trailing while-loop of the open-position copy (fetch-pool.ts
lines 397-400). -/
def b58PushCarryO (c : Nat) : List Nat :=
  if h : c = 0 then []
  else c % 256 :: b58PushCarryO (c / 256)
termination_by c
decreasing_by exact Nat.div_lt_self (Nat.pos_of_ne_zero h) (by norm_num)

/-- Processing of one input character by the open-position copy
(fetch-pool.ts lines 384-401). -/
def b58StepO (bytes : List Nat) (c : Char) : Except String (List Nat) :=
  match b58LookupO c with
  | none => .error ("Invalid base58 character: ".push c)
  | some v =>
      let p := b58MulAddO bytes v
      .ok (p.1 ++ b58PushCarryO p.2)

/-- decodeBase58 as written in the open-position script (fetch-pool.ts
lines 374-412). -/
def decodeBase58O (encoded : String) : Except String (List Nat) :=
  if encoded.length = 0 then .ok []
  else
    match encoded.toList.foldlM b58StepO [0] with
    | .error e => .error e
    | .ok bytes =>
        .ok (bytes ++
          (encoded.toList.takeWhile fun c => c == '1').map (fun _ => 0)).reverse

/-- Claim C3: for every snapshot built by the fetch-position script from
the current tick of a pool and the lower/upper ticks of a position,
inRange is true
if and only if lowerTick <= currentTick < upperTick (lower bound
inclusive, upper bound exclusive). -/
theorem c3_inRange_iff (mint : String) (pos : PositionData)
    (w : WhirlpoolData) (acctA acctB : Option (List Nat)) :
    (mkPositionSnapshot mint pos w acctA acctB).inRange = true ↔
      pos.tickLowerIndex ≤ w.tickCurrentIndex ∧
        w.tickCurrentIndex < pos.tickUpperIndex := by
  simp [mkPositionSnapshot, ge_iff_le]

/-- Claim C8 (implicit): the fetch-pool script computes currentPrice as
sqrtPriceToPrice(sqrtPrice, 9, 6) for every pool, regardless of the
actual token mints of the pool, whereas the fetch-position script derives
its prices from the fetched decimals of each mint, with fetchTokenDecimals
defaulting to 6 when the mint account is missing and reading byte 44 of
the account data otherwise. -/
theorem c8_decimals_handling (addr : String) (pool : WhirlpoolData)
    (mint : String) (pos : PositionData) (acctA acctB : Option (List Nat)) :
    (mkPoolInfo addr pool).currentPrice =
        sqrtPriceToPrice pool.sqrtPrice 9 6 ∧
      (mkPositionSnapshot mint pos pool acctA acctB).currentPrice =
        sqrtPriceToPrice pool.sqrtPrice (fetchTokenDecimals acctA)
          (fetchTokenDecimals acctB) ∧
      fetchTokenDecimals none = 6 ∧
      ∀ data : List Nat, fetchTokenDecimals (some data) = data.getD 44 0 :=
  ⟨rfl, rfl, rfl, fun _ => rfl⟩

/-- Claim C5: selectRange returns
lowerPrice = currentPrice * (1 - range_width_pct/200) and
upperPrice = currentPrice * (1 + range_width_pct/200); for
range_width_pct = 10 and currentPrice = 100 the output is (95, 105), and
for every p > 0 and w > 0 the result brackets p strictly. -/
theorem c5_selectRange_formula :
    selectRange 100 10 = .ok (95, 105) ∧
      ∀ p w : Rat, 0 < p → 0 < w →
        ∃ l u, selectRange p w = .ok (l, u) ∧ l < p ∧ p < u := by
  constructor
  · norm_num [selectRange]
  · intro p w hp hw
    refine ⟨p * (1 - w / 200), p * (1 + w / 200), ?_, ?_, ?_⟩
    · simp [selectRange, not_le.mpr hw]
    · nlinarith
    · nlinarith

/-- Claim C5 witness: the universally quantified part of the range claim
applied at p = 2, w = 3. -/
theorem c5_selectRange_formula_witness :
    ∃ l u, selectRange 2 3 = .ok (l, u) ∧ l < 2 ∧ 2 < u :=
  c5_selectRange_formula.2 2 3 (by norm_num) (by norm_num)

/-- Claim C6: for every in-range snapshot, the Evaluator returns NearEdge
if and only if distToNearerBoundary / rangeWidth <=
edge_threshold_pct / 100, inclusive exactly at the threshold. -/
theorem c6_nearEdge_iff (s : PositionSnapshot) (cfg : TriggerConfig)
    (h : s.inRange = true) :
    evaluate s cfg = Decision.nearEdge ↔
      distToNearerBoundary s / rangeWidth s ≤ cfg.edge_threshold_pct / 100 := by
  by_cases hc : distToNearerBoundary s / rangeWidth s ≤ cfg.edge_threshold_pct / 100 <;>
    simp [evaluate, h, hc]

/-- Claim C6 witness: the near-edge criterion applied to a concrete
in-range snapshot sitting exactly at a 50 percent threshold, where the
inclusive comparison makes the decision NearEdge. -/
theorem c6_nearEdge_iff_witness :
    (evaluate ⟨"m", "w", 0, 100, 64, -10, 10, 95, 105, 1, "a", "b", true, 0, 0⟩
        ⟨true, 50⟩ = Decision.nearEdge ↔
      distToNearerBoundary
          ⟨"m", "w", 0, 100, 64, -10, 10, 95, 105, 1, "a", "b", true, 0, 0⟩ /
          rangeWidth
          ⟨"m", "w", 0, 100, 64, -10, 10, 95, 105, 1, "a", "b", true, 0, 0⟩ ≤
        50 / 100) ∧
      evaluate ⟨"m", "w", 0, 100, 64, -10, 10, 95, 105, 1, "a", "b", true, 0, 0⟩
        ⟨true, 50⟩ = Decision.nearEdge :=
  ⟨c6_nearEdge_iff _ _ rfl,
    by norm_num [evaluate, distToNearerBoundary, rangeWidth]⟩

/-- Claim C1: for every position observed to have zero liquidity, the
workflow withdraw step succeeds as a no-op treated as already-complete:
no executor call is made and pending_step advances to swap. -/
theorem c1_withdraw_zero_liquidity (st : WorkflowState) (env : WEnv)
    (h : env.observedLiquidity = 0) :
    withdrawStepModel st env =
      (StepResult.ok { st with
          pending_step := Step.swap
          current_position_mint := none }, []) := by
  simp [withdrawStepModel, h]

/-- Claim C1 witness: the zero-liquidity short-circuit on a concrete
pending-withdraw state. -/
theorem c1_withdraw_zero_liquidity_witness :
    withdrawStepModel
        ⟨some "mintX", none, true, Step.withdraw, ⟨0, 0⟩⟩
        ⟨0, .ok ⟨1, 2⟩, false, none, 100, 5, none, "newMint", 42⟩ =
      (StepResult.ok ⟨none, none, true, Step.swap, ⟨0, 0⟩⟩, []) :=
  c1_withdraw_zero_liquidity
    ⟨some "mintX", none, true, Step.withdraw, ⟨0, 0⟩⟩
    ⟨0, .ok ⟨1, 2⟩, false, none, 100, 5, none, "newMint", 42⟩ rfl

/-- Claim C9 (implicit): whenever simulateTransaction reports a non-null
err, the withdraw-all script terminates with a failure result and
sendTransaction never appears in its RPC trace. -/
theorem c9_no_send_after_failed_simulation (env : WithdrawEnv)
    (mint e : String) (h : env.simulationErr = some e) :
    RpcAction.sendTransaction ∉ (withdrawAllRun env mint).2 ∧
      ((withdrawAllRun env mint).1).success = false := by
  by_cases hl : env.positionLiquidity = 0 <;>
    simp [withdrawAllRun, hl, h, WithdrawOutput.success]

/-- The withdraw-all chain responses used by concrete evaluations below:
liquidity 5, a failing simulation, and statuses that never resolve. -/
def wEnvSimErr : WithdrawEnv :=
  ⟨5, some "boom", fun _ => none, 1, 2, 3, 4, "sig"⟩

/-- Claim C9 witness: the failed-simulation guarantee on a concrete run. -/
theorem c9_no_send_after_failed_simulation_witness :
    RpcAction.sendTransaction ∉ (withdrawAllRun wEnvSimErr "m").2 ∧
      ((withdrawAllRun wEnvSimErr "m").1).success = false :=
  c9_no_send_after_failed_simulation wEnvSimErr "m" "boom" rfl

/-- Claim C4: for every persisted state with pending_rebalance set and
pending_step = swap, re-invoking the Workflow does not re-execute the
withdraw step: the executor withdraw call never appears in the action
trace, and the run enters the swap step first, using the stored
withdrawn_amounts. -/
theorem c4_resume_skips_withdraw (st : WorkflowState) (d : Decision)
    (force : Bool) (env : WEnv) (h1 : st.pending_rebalance = true)
    (h2 : st.pending_step = Step.swap) :
    WAction.withdrawExec ∉ (invokeWorkflow st d force env).2 ∧
      (invokeWorkflow st d force env).2.head? =
        some (WAction.swapEval st.withdrawn_amounts) := by
  cases hb : env.swapBelowMin <;>
    cases ho : env.swapOutcome <;>
    cases hsr : selectRange env.currentPrice env.range_width_pct <;>
    cases hoo : env.openOutcome <;>
    simp [invokeWorkflow, h1, runFrom, h2, andThen, swapStepModel,
      openStepModel, hb, ho, hsr, hoo]

/-- Claim C4 witness: resumption on a concrete persisted state with
pending_step = swap and stored withdrawn amounts (3, 4). -/
theorem c4_resume_skips_withdraw_witness :
    WAction.withdrawExec ∉
        (invokeWorkflow ⟨none, none, true, Step.swap, ⟨3, 4⟩⟩
          Decision.noTrigger false
          ⟨7, .ok ⟨1, 2⟩, false, none, 100, 5, none, "newMint", 42⟩).2 ∧
      (invokeWorkflow ⟨none, none, true, Step.swap, ⟨3, 4⟩⟩
          Decision.noTrigger false
          ⟨7, .ok ⟨1, 2⟩, false, none, 100, 5, none, "newMint", 42⟩).2.head? =
        some (WAction.swapEval ⟨3, 4⟩) :=
  c4_resume_skips_withdraw
    ⟨none, none, true, Step.swap, ⟨3, 4⟩⟩ Decision.noTrigger false
    ⟨7, .ok ⟨1, 2⟩, false, none, 100, 5, none, "newMint", 42⟩ rfl rfl

/-- Withdraw-all chain responses whose signature statuses never resolve:
the polling loop can only time out. -/
def wEnvTimeout : WithdrawEnv :=
  ⟨5, none, fun _ => none, 1, 2, 3, 4, "sig"⟩

/-- Open-position chain responses whose signature statuses never resolve. -/
def openEnvTimeout : OpenEnv :=
  ⟨fun _ => none, 10, 20, 30, "newmint", "sig"⟩

/-- Claim C2 counterexample: the open-position script exhausts all 15
polling attempts without the transaction confirming, yet prints a result
with success = true, contradicting the claim that exhaustion surfaces a
step-level failure for open-position invocations. -/
theorem c2_counterexample :
    runPoll openEnvTimeout.statuses 0 15 = PollOutcome.timeout ∧
      (openPositionRun openEnvTimeout 95 105 1000).success = true := by
  have hpoll : runPoll openEnvTimeout.statuses 0 15 = PollOutcome.timeout := rfl
  refine ⟨hpoll, ?_⟩
  have h : ¬ ((95 : Rat) ≥ 105) := by norm_num
  simp [openPositionRun, h, hpoll, OpenOutput.success]

/-- Claim C2 as amended: both confirmation-polling loops are bounded (30
attempts for withdraw-all, 15 for open-position); exhausting the attempts
makes withdraw-all report a step-level failure (success = false,
confirmation-timeout error), while open-position reports a failure only
when a polled status carries a transaction error; on plain exhaustion it
still prints a success result, logging only a stderr warning. -/
theorem c2_retry_exhaustion (wenv : WithdrawEnv) (mint : String)
    (oenvF oenvT : OpenEnv) (l u : Rat) (amt : Nat) (e : String)
    (hliq : wenv.positionLiquidity ≠ 0) (hsim : wenv.simulationErr = none)
    (hwt : runPoll wenv.statuses 0 30 = PollOutcome.timeout)
    (hlu : l < u)
    (hof : runPoll oenvF.statuses 0 15 = PollOutcome.failedTx e)
    (hot : runPoll oenvT.statuses 0 15 = PollOutcome.timeout) :
    (withdrawAllRun wenv mint).1 =
        .err ⟨"Transaction confirmation timeout", mint⟩ ∧
      ((withdrawAllRun wenv mint).1).success = false ∧
      (openPositionRun oenvF l u amt).success = false ∧
      (openPositionRun oenvT l u amt).success = true := by
  have h : ¬ (l ≥ u) := not_le.mpr hlu
  refine ⟨?_, ?_, ?_, ?_⟩
  · simp [withdrawAllRun, hliq, hsim, hwt]
  · simp [withdrawAllRun, hliq, hsim, hwt, WithdrawOutput.success]
  · simp [openPositionRun, h, hof, OpenOutput.success]
  · simp [openPositionRun, h, hot, OpenOutput.success]

/-- Open-position chain responses whose first polled status carries a
transaction error, used to exercise the failure branch of the polling
loop. -/
def openEnvPollErr : OpenEnv :=
  ⟨fun _ => some ⟨some "boom", none⟩, 10, 20, 30, "mint", "sig"⟩

/-- Claim C2 witness: the amended exhaustion behavior on concrete
environments, one whose statuses never resolve and one whose first
status carries a transaction error. -/
theorem c2_retry_exhaustion_witness :
    (withdrawAllRun wEnvTimeout "m").1 =
        .err ⟨"Transaction confirmation timeout", "m"⟩ ∧
      ((withdrawAllRun wEnvTimeout "m").1).success = false ∧
      (openPositionRun openEnvPollErr 95 105 1000).success = false ∧
      (openPositionRun openEnvTimeout 95 105 1000).success = true :=
  c2_retry_exhaustion wEnvTimeout "m" openEnvPollErr openEnvTimeout
    95 105 1000 "boom" (by norm_num [wEnvTimeout]) rfl rfl (by norm_num)
    rfl rfl

/-- The JSON object printed for a WithdrawError, as its ordered list of
key/value pairs: JSON.stringify of the TS interface emits success (the
literal false), error, positionMint (fetch-pool.ts lines 157-161). -/
def encodeWithdrawError (e : WithdrawError) : List (String × String) :=
  [("success", "false"), ("error", e.error), ("positionMint", e.positionMint)]

/-- The JSON object printed for an OpenPositionError, as its ordered list
of key/value pairs: JSON.stringify emits success (the literal false) and
error only; the interface has no position-mint field (fetch-pool.ts
lines 425-428). -/
def encodeOpenPositionError (e : OpenPositionError) : List (String × String) :=
  [("success", "false"), ("error", e.error)]

/-- Open-position chain responses whose first polled status carries a
transaction error. -/
def openEnvTxFailed : OpenEnv :=
  ⟨fun _ => some ⟨some "x", none⟩, 10, 20, 30, "mint", "sig"⟩

/-- Claim C7 counterexample: a terminal failure of the open-position
script produces a structured result whose printed keys are success and
error only; no position mint is identified, contradicting the claim for
open-position failures. -/
theorem c7_counterexample :
    openPositionRun openEnvTxFailed 95 105 1000 =
      OpenOutput.err ⟨"Transaction failed: x"⟩ ∧
      "positionMint" ∉
        (encodeOpenPositionError ⟨"Transaction failed: x"⟩).map Prod.fst := by
  constructor
  · have h : ¬ ((95 : Rat) ≥ 105) := by norm_num
    simp only [openPositionRun]
    rw [if_neg h]
    rfl
  · decide

/-- Every failure output of the withdraw-all script carries the position
mint it was invoked on: all error branches of the script construct their
WithdrawError with the positionMint argument of the script. -/
theorem withdrawAllRun_err_positionMint (wenv : WithdrawEnv) (mint : String)
    (e : WithdrawError) (h : (withdrawAllRun wenv mint).1 = .err e) :
    e.positionMint = mint := by
  by_cases hl : wenv.positionLiquidity = 0
  · simp [withdrawAllRun, hl] at h
    rw [← h]
  · cases hs : wenv.simulationErr with
    | some s =>
        simp [withdrawAllRun, hl, hs] at h
        rw [← h]
    | none =>
        cases hp : runPoll wenv.statuses 0 30 with
        | confirmedTx => simp [withdrawAllRun, hl, hs, hp] at h
        | failedTx s =>
            simp [withdrawAllRun, hl, hs, hp] at h
            rw [← h]
        | timeout =>
            simp [withdrawAllRun, hl, hs, hp] at h
            rw [← h]

/-- Claim C7 as amended: every terminal failure of either executor script
produces a structured result distinguishing success from failure
(success = false plus an error message); a withdraw-all failure
additionally identifies the affected position mint, while an
open-position failure prints only success and error, with no
position-mint field. -/
theorem c7_structured_failure_results (wenv : WithdrawEnv) (mint : String)
    (e : WithdrawError) (h : (withdrawAllRun wenv mint).1 = .err e) :
    ((withdrawAllRun wenv mint).1).success = false ∧
      e.positionMint = mint ∧
      (encodeWithdrawError e).map Prod.fst =
        ["success", "error", "positionMint"] ∧
      ∀ oe : OpenPositionError,
        (encodeOpenPositionError oe).map Prod.fst = ["success", "error"] := by
  refine ⟨?_, withdrawAllRun_err_positionMint wenv mint e h, rfl, fun oe => rfl⟩
  rw [h]
  rfl

/-- Claim C7 witness: the amended statement on a concrete failing
withdraw-all run (simulation failure). -/
theorem c7_structured_failure_results_witness :
    ((withdrawAllRun wEnvSimErr "m").1).success = false ∧
      WithdrawError.positionMint ⟨"Simulation failed: boom", "m"⟩ = "m" ∧
      (encodeWithdrawError ⟨"Simulation failed: boom", "m"⟩).map Prod.fst =
        ["success", "error", "positionMint"] ∧
      ∀ oe : OpenPositionError,
        (encodeOpenPositionError oe).map Prod.fst = ["success", "error"] :=
  c7_structured_failure_results wEnvSimErr "m"
    ⟨"Simulation failed: boom", "m"⟩ rfl

/-- The two copies of the carry-push while-loop agree on every carry. -/
theorem b58PushCarry_eq (c : Nat) : b58PushCarryW c = b58PushCarryO c := by
  induction c using Nat.strong_induction_on with
  | _ c ih =>
    rw [b58PushCarryW, b58PushCarryO]
    by_cases h : c = 0
    · rw [dif_pos h, dif_pos h]
    · rw [dif_neg h, dif_neg h,
        ih (c / 256) (Nat.div_lt_self (Nat.pos_of_ne_zero h) (by norm_num))]

/-- The two copies of the multiply-and-carry inner loop agree on every
byte list and carry. -/
theorem b58MulAdd_eq (l : List Nat) :
    ∀ carry, b58MulAddW l carry = b58MulAddO l carry := by
  induction l with
  | nil => intro carry; rfl
  | cons b rest ih => intro carry; simp [b58MulAddW, b58MulAddO, ih]

/-- The two copies of the per-character step agree on every byte list and
character. -/
theorem b58Step_eq (bytes : List Nat) (c : Char) :
    b58StepW bytes c = b58StepO bytes c := by
  simp only [b58StepW, b58StepO, b58LookupW, b58LookupO, b58AlphabetW,
    b58AlphabetO, b58MulAdd_eq, b58PushCarry_eq]

/-- Claim C10 (implicit): the two textually duplicated decodeBase58
copies, one in the withdraw-all script and one in the open-position
script, are extensionally equal: on every input string they return the
same byte array, or fail on the same invalid character with the same
message. -/
theorem c10_decodeBase58_copies_agree :
    ∀ s : String, decodeBase58W s = decodeBase58O s := by
  have hstep : b58StepW = b58StepO :=
    funext fun bytes => funext fun c => b58Step_eq bytes c
  intro s
  unfold decodeBase58W decodeBase58O
  rw [hstep]
